import Mathlib

/-!
Shallow embedding of the `KlineTimestamp` value type of the repository.
The repository ships two variants of the class:

* `src/kline_timestamp/kline_timestamp.py` — a frozen dataclass (the
  "package variant"); it lowercases the interval on construction, freezes
  the bucket `open`/`close` boundaries as fields, compares equality by the
  bucket open alone, and `with_timezone` returns a fresh instance.
* `src/kline_timestamp.py` — a plain class (the "root variant"); it does
  not normalize the interval case, computes the bucket boundaries on demand
  via `get_candle_open_timestamp_ms` / `get_candle_close_timestamp_ms`
  (same formula as the package variant's frozen fields), its `__eq__`
  compares interval, timezone and bucket open, and `update_timezone`
  assigns `self.tzinfo` in place and returns `None`.

Python integers are arbitrary precision, embedded as `Int`; Python `//` is
floor division (toward negative infinity), embedded as `Int.fdiv`.
`datetime.timedelta` is an exact signed count of microseconds; the float
returned by `total_seconds()` is embedded as exact rational arithmetic and
Python `int()` as truncation toward zero.  A timezone is embedded as its
IANA name string; resolution against the timezone database is not modelled
(no claim below depends on it).
-/

/-- Error raised by both constructors: in Python a `ValueError` with message
`Invalid interval: {interval}. Valid intervals are: {list(keys)}.`, carrying
the offending interval value and the list of valid interval codes. -/
inductive KtError where
  | invalidInterval (value : String) (valid : List String)
  deriving DecidableEq, Repr

/-- The fixed `tick_milliseconds` interval table, in the Python dict's
insertion order (the table is identical in both variants). -/
def tick_milliseconds : List (String × Int) :=
  [("1m", 60 * 1000), ("3m", 3 * 60 * 1000), ("5m", 5 * 60 * 1000),
   ("15m", 15 * 60 * 1000), ("30m", 30 * 60 * 1000), ("1h", 60 * 60 * 1000),
   ("2h", 2 * 60 * 60 * 1000), ("4h", 4 * 60 * 60 * 1000),
   ("6h", 6 * 60 * 60 * 1000), ("8h", 8 * 60 * 60 * 1000),
   ("12h", 12 * 60 * 60 * 1000), ("1d", 24 * 60 * 60 * 1000),
   ("3d", 3 * 24 * 60 * 60 * 1000), ("1w", 7 * 24 * 60 * 60 * 1000)]

/-- The list `list(tick_milliseconds.keys())` reported in the
invalid-interval error message. -/
def valid_intervals : List String := tick_milliseconds.map Prod.fst

/-- State of a `KlineTimestamp` instance: the fields assigned by
`__init__` / `__post_init__`.  The package variant additionally freezes the
`open` and `close` fields; they are pure functions of `timestamp_ms` and
`tick_ms` (see `KlineTimestamp.open_ms` below), so they are embedded as
derived functions rather than duplicated fields. -/
structure KlineTimestamp where
  timestamp_ms : Int
  interval : String
  tick_ms : Int
  tzinfo : String
  deriving DecidableEq, Repr

instance {ε α : Type} [DecidableEq ε] [DecidableEq α] :
    DecidableEq (Except ε α) := fun x y =>
  match x, y with
  | .ok a, .ok b =>
    if h : a = b then isTrue (by rw [h]) else isFalse (by simp [h])
  | .error a, .error b =>
    if h : a = b then isTrue (by rw [h]) else isFalse (by simp [h])
  | .ok _, .error _ => isFalse (by simp)
  | .error _, .ok _ => isFalse (by simp)

/-- Constructor of the root variant (`KlineTimestamp.__init__` in
`src/kline_timestamp.py`): looks the interval up verbatim in
`tick_milliseconds` and raises `ValueError` when it is absent. -/
def mkKlineRoot (timestamp_ms : Int) (interval : String) (tzinfo : String) :
    Except KtError KlineTimestamp :=
  match tick_milliseconds.lookup interval with
  | none => .error (.invalidInterval interval valid_intervals)
  | some tick => .ok ⟨timestamp_ms, interval, tick, tzinfo⟩

/-- Python `str.lower()`: lowercases every character (the interval codes are
ASCII, where Python's Unicode lowering and per-character `Char.toLower`
agree).  Defined by a structural map over the character list so that proofs
can evaluate it. -/
def str_lower (s : String) : String :=
  ⟨s.data.map Char.toLower⟩

/-- Constructor of the package variant (`KlineTimestamp.__post_init__` in
`src/kline_timestamp/kline_timestamp.py`): first replaces the interval with
`interval.lower()`, then looks it up; the error message reports the
lowercased value (`self.interval` after the assignment). -/
def mkKlinePackage (timestamp_ms : Int) (interval : String) (tzinfo : String) :
    Except KtError KlineTimestamp :=
  match tick_milliseconds.lookup (str_lower interval) with
  | none => .error (.invalidInterval (str_lower interval) valid_intervals)
  | some tick => .ok ⟨timestamp_ms, str_lower interval, tick, tzinfo⟩

/-- Bucket open boundary `(timestamp_ms // tick_ms) * tick_ms` (Python `//`
is floor division).  This is the formula of the package variant's frozen
`open` field and of the root variant's `get_candle_open_timestamp_ms`. -/
def KlineTimestamp.open_ms (k : KlineTimestamp) : Int :=
  (k.timestamp_ms.fdiv k.tick_ms) * k.tick_ms

/-- Bucket close boundary `open + tick_ms - 1`: the package variant's frozen
`close` field and the root variant's `get_candle_close_timestamp_ms`. -/
def KlineTimestamp.close_ms (k : KlineTimestamp) : Int :=
  k.open_ms + k.tick_ms - 1

/-- Python `datetime.timedelta`: an exact signed count of microseconds. -/
structure timedelta where
  microseconds : Int
  deriving DecidableEq, Repr

/-- Python `timedelta.total_seconds()`, embedded as an exact rational (the
float rounding of the Python implementation is not modelled). -/
def timedelta.total_seconds (d : timedelta) : ℚ :=
  (d.microseconds : ℚ) / 1000000

/-- Python `int(x)` on a number `x`: truncation toward zero. -/
def pyInt (q : ℚ) : Int :=
  if 0 ≤ q then ⌊q⌋ else ⌈q⌉

/-- The millisecond count `int(other.total_seconds() * 1000)` computed by
`__add__` and `__sub__` in both variants. -/
def duration_as_ms (d : timedelta) : Int :=
  pyInt (d.total_seconds * 1000)

/-- Method `__add__` (identical formula in both variants): shifts the raw
timestamp by the duration and rebuilds through the constructor with the same
interval and timezone.  For a well-formed receiver the stored interval is a
valid table key, already lowercase in the package variant, so the two
variants' constructors coincide on it and `mkKlineRoot` stands for both. -/
def KlineTimestamp.add (k : KlineTimestamp) (other : timedelta) :
    Except KtError KlineTimestamp :=
  mkKlineRoot (k.timestamp_ms + duration_as_ms other) k.interval k.tzinfo

/-- Branch of `__sub__` taking a `timedelta` (identical in both variants). -/
def KlineTimestamp.sub_timedelta (k : KlineTimestamp) (other : timedelta) :
    Except KtError KlineTimestamp :=
  mkKlineRoot (k.timestamp_ms - duration_as_ms other) k.interval k.tzinfo

/-- Branch of `__sub__` taking another instance (identical in both
variants): `timedelta(milliseconds=self.timestamp_ms - other.timestamp_ms)`;
a Python `timedelta` of `n` integer milliseconds holds exactly `n * 1000`
microseconds. -/
def KlineTimestamp.sub_kline (k other : KlineTimestamp) : timedelta :=
  ⟨(k.timestamp_ms - other.timestamp_ms) * 1000⟩

/-- Method `next` (identical formula in both variants): rebuilds from
`open + tick_ms` with the same interval and timezone. -/
def KlineTimestamp.next (k : KlineTimestamp) : Except KtError KlineTimestamp :=
  mkKlineRoot (k.open_ms + k.tick_ms) k.interval k.tzinfo

/-- Method `prev` (identical formula in both variants): rebuilds from
`open - tick_ms` with the same interval and timezone. -/
def KlineTimestamp.prev (k : KlineTimestamp) : Except KtError KlineTimestamp :=
  mkKlineRoot (k.open_ms - k.tick_ms) k.interval k.tzinfo

/-- Package variant `with_timezone`: calls the package constructor with the
receiver's raw timestamp and interval and the new timezone. -/
def KlineTimestamp.with_timezone (k : KlineTimestamp) (tz : String) :
    Except KtError KlineTimestamp :=
  mkKlinePackage k.timestamp_ms k.interval tz

/-- Root variant `update_timezone`: assigns `self.tzinfo` in place and
returns `None`.  Embedded as the pair of the receiver's state after the call
and the returned value. -/
def KlineTimestamp.update_timezone (k : KlineTimestamp) (tz : String) :
    KlineTimestamp × Option KlineTimestamp :=
  ({ k with tzinfo := tz }, none)

/-- Method `__lt__` (identical in both variants): strict comparison of the
bucket open boundaries. -/
def KlineTimestamp.lt (a b : KlineTimestamp) : Bool :=
  decide (a.open_ms < b.open_ms)

/-- Method `__le__` (identical in both variants). -/
def KlineTimestamp.le (a b : KlineTimestamp) : Bool :=
  decide (a.open_ms ≤ b.open_ms)

/-- Method `__gt__` (identical in both variants). -/
def KlineTimestamp.gt (a b : KlineTimestamp) : Bool :=
  decide (a.open_ms > b.open_ms)

/-- Method `__ge__` (identical in both variants). -/
def KlineTimestamp.ge (a b : KlineTimestamp) : Bool :=
  decide (a.open_ms ≥ b.open_ms)

/-- Package variant `__eq__`: `self.open == other.open` alone. -/
def KlineTimestamp.eqPackage (a b : KlineTimestamp) : Bool :=
  decide (a.open_ms = b.open_ms)

/-- Root variant `__eq__`: `same_interval and same_tzinfo and
same_timestamp`, where `same_timestamp` compares the bucket opens. -/
def KlineTimestamp.eqRoot (a b : KlineTimestamp) : Bool :=
  (a.interval == b.interval) && (a.tzinfo == b.tzinfo)
    && (a.open_ms == b.open_ms)

/-- A well-formed instance: its stored `tick_ms` is the table entry of its
stored `interval` — exactly what both constructors establish. -/
def KlineTimestamp.WellFormed (k : KlineTimestamp) : Prop :=
  tick_milliseconds.lookup k.interval = some k.tick_ms

instance (k : KlineTimestamp) : Decidable k.WellFormed := by
  unfold KlineTimestamp.WellFormed
  infer_instance

/-- A successful lookup in an association list locates a member pair. -/
theorem lookup_eq_some_mem {l : List (String × Int)} {s : String} {v : Int}
    (h : l.lookup s = some v) : (s, v) ∈ l := by
  induction l with
  | nil => simp [List.lookup] at h
  | cons p tl ih =>
    obtain ⟨key, val⟩ := p
    rw [List.lookup] at h
    by_cases hk : s = key
    · subst hk
      simp at h
      subst h
      exact List.mem_cons_self _ _
    · have hb : (s == key) = false := beq_eq_false_iff_ne.mpr hk
      rw [hb] at h
      exact List.mem_cons_of_mem _ (ih h)

/-- A key absent from the key list never looks up. -/
theorem lookup_eq_none_of_not_mem {l : List (String × Int)} {s : String}
    (h : s ∉ l.map Prod.fst) : l.lookup s = none := by
  cases hl : l.lookup s with
  | none => rfl
  | some v =>
    exact absurd (List.mem_map_of_mem Prod.fst (lookup_eq_some_mem hl)) h

/-- Every width in the interval table is positive. -/
theorem tick_entry_pos : ∀ p ∈ tick_milliseconds, 0 < p.2 := by decide

/-- A width obtained from the table is positive. -/
theorem tick_pos {s : String} {v : Int}
    (h : tick_milliseconds.lookup s = some v) : 0 < v :=
  tick_entry_pos _ (lookup_eq_some_mem h)

/-- A key found by lookup belongs to the valid interval list. -/
theorem lookup_mem_keys {s : String} {v : Int}
    (h : tick_milliseconds.lookup s = some v) : s ∈ valid_intervals :=
  List.mem_map_of_mem Prod.fst (lookup_eq_some_mem h)

/-- Every valid interval code is already lowercase. -/
theorem mem_valid_toLower {s : String} (h : s ∈ valid_intervals) :
    str_lower s = s := by
  simp only [valid_intervals, tick_milliseconds, List.map, List.mem_cons,
    List.not_mem_nil, or_false] at h
  rcases h with h | h | h | h | h | h | h | h | h | h | h | h | h | h <;>
    subst h <;> decide

/-- The root constructor succeeds on a key of the table, producing exactly
the looked-up tick width. -/
theorem mkKlineRoot_ok {t : Int} {i tz : String} {tick : Int}
    (h : tick_milliseconds.lookup i = some tick) :
    mkKlineRoot t i tz = .ok ⟨t, i, tick, tz⟩ := by
  unfold mkKlineRoot
  rw [h]

/-- Any instance produced by the root constructor is well formed and stores
the arguments verbatim. -/
theorem mkKlineRoot_wf {t : Int} {i tz : String} {k : KlineTimestamp}
    (h : mkKlineRoot t i tz = .ok k) :
    k.WellFormed ∧ k.timestamp_ms = t ∧ k.interval = i ∧ k.tzinfo = tz := by
  unfold mkKlineRoot at h
  split at h
  · exact absurd h (by simp)
  · next tick heq =>
    obtain rfl : KlineTimestamp.mk t i tick tz = k := by
      simpa using h
    exact ⟨heq, rfl, rfl, rfl⟩

/-- On an interval whose stored form is already lowercase the two
constructors coincide. -/
theorem mkKlinePackage_eq_root {t : Int} {i tz : String}
    (hfix : str_lower i = i) :
    mkKlinePackage t i tz = mkKlineRoot t i tz := by
  unfold mkKlinePackage mkKlineRoot
  rw [hfix]

/-- Any instance produced by the package constructor is well formed and
stores the lowercased interval. -/
theorem mkKlinePackage_wf {t : Int} {i tz : String} {k : KlineTimestamp}
    (h : mkKlinePackage t i tz = .ok k) :
    k.WellFormed ∧ k.timestamp_ms = t ∧ k.interval = str_lower i
      ∧ k.tzinfo = tz := by
  unfold mkKlinePackage at h
  split at h
  · exact absurd h (by simp)
  · next tick heq =>
    obtain rfl : KlineTimestamp.mk t (str_lower i) tick tz = k := by
      simpa using h
    exact ⟨heq, rfl, rfl, rfl⟩

/-- The bucket open of an instance whose raw timestamp is a multiple of its
tick width is that raw timestamp itself. -/
theorem open_ms_of_multiple {w : Int} (hne : w ≠ 0) (a ts : Int)
    (i tz : String) (hts : ts = a * w) :
    (KlineTimestamp.mk ts i w tz).open_ms = ts := by
  subst hts
  show (a * w).fdiv w * w = a * w
  rw [Int.mul_fdiv_cancel _ hne]

/-- A well-formed instance brackets its raw timestamp between the bucket
boundaries. -/
theorem open_le_raw_le_close {k : KlineTimestamp} (h : k.WellFormed) :
    k.open_ms ≤ k.timestamp_ms ∧ k.timestamp_ms ≤ k.close_ms := by
  have hw : 0 < k.tick_ms := tick_pos h
  constructor
  · show k.timestamp_ms.fdiv k.tick_ms * k.tick_ms ≤ k.timestamp_ms
    rw [Int.fdiv_eq_ediv _ (le_of_lt hw)]
    exact Int.ediv_mul_le _ (ne_of_gt hw)
  · show k.timestamp_ms ≤
      k.timestamp_ms.fdiv k.tick_ms * k.tick_ms + k.tick_ms - 1
    have h2 := Int.lt_fdiv_add_one_mul_self k.timestamp_ms hw
    rw [add_mul, one_mul] at h2
    omega

/-- Truncation of an integer-valued rational is that integer. -/
theorem pyInt_intCast (z : Int) : pyInt (z : ℚ) = z := by
  unfold pyInt
  split
  · exact Int.floor_intCast z
  · exact Int.ceil_intCast z

/-- C1: every instance constructed (by either variant's constructor) from an
integer raw timestamp `t` and a valid interval of tick width `tick`
satisfies `open_ms = (t // tick) * tick`, with `//` the floor division
toward negative infinity `Int.fdiv`, and `close_ms = open_ms + tick - 1`. -/
theorem C1_bucket_boundaries (t : Int) (i tz : String) (tick : Int)
    (h : tick_milliseconds.lookup i = some tick) :
    mkKlineRoot t i tz = .ok ⟨t, i, tick, tz⟩ ∧
    mkKlinePackage t i tz = .ok ⟨t, i, tick, tz⟩ ∧
    (KlineTimestamp.mk t i tick tz).open_ms = t.fdiv tick * tick ∧
    (KlineTimestamp.mk t i tick tz).close_ms = t.fdiv tick * tick + tick - 1 := by
  have hfix : str_lower i = i := mem_valid_toLower (lookup_mem_keys h)
  exact ⟨mkKlineRoot_ok h, by rw [mkKlinePackage_eq_root hfix]; exact mkKlineRoot_ok h,
    rfl, rfl⟩

/-- Witness for C1 at the spec's concrete scenario: raw timestamp
1633036812345 in the one-hour bucket opening at 1633036800000. -/
theorem C1_bucket_boundaries_witness :
    mkKlineRoot 1633036812345 "1h" "UTC" =
      .ok ⟨1633036812345, "1h", 3600000, "UTC"⟩ ∧
    mkKlinePackage 1633036812345 "1h" "UTC" =
      .ok ⟨1633036812345, "1h", 3600000, "UTC"⟩ ∧
    (KlineTimestamp.mk 1633036812345 "1h" 3600000 "UTC").open_ms =
      (1633036812345 : Int).fdiv 3600000 * 3600000 ∧
    (KlineTimestamp.mk 1633036812345 "1h" 3600000 "UTC").close_ms =
      (1633036812345 : Int).fdiv 3600000 * 3600000 + 3600000 - 1 :=
  C1_bucket_boundaries 1633036812345 "1h" "UTC" 3600000 (by decide)

/-- C2: every instance produced by either constructor, from any integer raw
timestamp (negative ones included) and any supported interval, satisfies
`open_ms ≤ raw_timestamp_ms ≤ close_ms`. -/
theorem C2_open_le_raw_le_close (t : Int) (i tz : String) (k : KlineTimestamp)
    (h : mkKlineRoot t i tz = .ok k ∨ mkKlinePackage t i tz = .ok k) :
    k.open_ms ≤ t ∧ t ≤ k.close_ms := by
  rcases h with h | h
  · obtain ⟨hwf, hts, -, -⟩ := mkKlineRoot_wf h
    rw [← hts]
    exact open_le_raw_le_close hwf
  · obtain ⟨hwf, hts, -, -⟩ := mkKlinePackage_wf h
    rw [← hts]
    exact open_le_raw_le_close hwf

/-- Witness for C2 at a negative pre-epoch raw timestamp. -/
theorem C2_open_le_raw_le_close_witness :
    (KlineTimestamp.mk (-5) "1m" 60000 "UTC").open_ms ≤ -5 ∧
    (-5 : Int) ≤ (KlineTimestamp.mk (-5) "1m" 60000 "UTC").close_ms :=
  C2_open_le_raw_le_close (-5) "1m" "UTC" _ (Or.inl (by decide))

/-- C3 counterexample: two constructed instances of the root variant whose
bucket opens coincide (raw timestamp 0, intervals "1h" and "2h") but whose
`__eq__` returns `False`, because the root variant additionally compares
interval and timezone.  This refutes the claim that, for any two instances,
equality holds exactly when the bucket opens coincide. -/
theorem C3_counterexample :
    mkKlineRoot 0 "1h" "UTC" = .ok ⟨0, "1h", 3600000, "UTC"⟩ ∧
    mkKlineRoot 0 "2h" "UTC" = .ok ⟨0, "2h", 7200000, "UTC"⟩ ∧
    (KlineTimestamp.mk 0 "1h" 3600000 "UTC").open_ms =
      (KlineTimestamp.mk 0 "2h" 7200000 "UTC").open_ms ∧
    KlineTimestamp.eqRoot (KlineTimestamp.mk 0 "1h" 3600000 "UTC")
      (KlineTimestamp.mk 0 "2h" 7200000 "UTC") = false := by
  decide

/-- C3 amended: the ordering comparisons of both variants, and the package
variant's equality, are computed solely from the bucket opens (so package
equality ignores interval and timezone differences); the root variant's
equality instead requires equal interval, equal timezone and equal bucket
open. -/
theorem C3_comparisons_amended (a b : KlineTimestamp) :
    (a.lt b = true ↔ a.open_ms < b.open_ms) ∧
    (a.le b = true ↔ a.open_ms ≤ b.open_ms) ∧
    (a.gt b = true ↔ a.open_ms > b.open_ms) ∧
    (a.ge b = true ↔ a.open_ms ≥ b.open_ms) ∧
    (a.eqPackage b = true ↔ a.open_ms = b.open_ms) ∧
    (a.eqRoot b = true ↔
      a.interval = b.interval ∧ a.tzinfo = b.tzinfo ∧ a.open_ms = b.open_ms) := by
  simp [KlineTimestamp.lt, KlineTimestamp.le, KlineTimestamp.gt,
    KlineTimestamp.ge, KlineTimestamp.eqPackage, KlineTimestamp.eqRoot,
    and_assoc]

/-- C4 counterexample: on a constructed instance of the root variant,
`update_timezone` returns `None` rather than a new instance, and changes the
receiver's timezone in place.  This refutes the claim that the
timezone-change operation returns a new instance. -/
theorem C4_counterexample :
    mkKlineRoot 1633036800000 "1h" "UTC" =
      .ok ⟨1633036800000, "1h", 3600000, "UTC"⟩ ∧
    (KlineTimestamp.update_timezone
      (KlineTimestamp.mk 1633036800000 "1h" 3600000 "UTC")
      "Europe/Madrid").2 = none ∧
    (KlineTimestamp.update_timezone
      (KlineTimestamp.mk 1633036800000 "1h" 3600000 "UTC")
      "Europe/Madrid").1.tzinfo ≠ "UTC" := by
  decide

/-- C4 amended: the package variant's `with_timezone` returns a new instance
with the same raw timestamp, interval, bucket open and bucket close and only
the timezone replaced; the root variant's `update_timezone` instead mutates
the receiver's timezone in place and returns no instance, while leaving the
receiver's raw timestamp, interval, bucket open and bucket close
unchanged. -/
theorem C4_timezone_change_amended (k : KlineTimestamp) (tz : String)
    (h : k.WellFormed) :
    (k.with_timezone tz = .ok ⟨k.timestamp_ms, k.interval, k.tick_ms, tz⟩ ∧
      (KlineTimestamp.mk k.timestamp_ms k.interval k.tick_ms tz).open_ms
        = k.open_ms ∧
      (KlineTimestamp.mk k.timestamp_ms k.interval k.tick_ms tz).close_ms
        = k.close_ms) ∧
    ((k.update_timezone tz).1.timestamp_ms = k.timestamp_ms ∧
      (k.update_timezone tz).1.interval = k.interval ∧
      (k.update_timezone tz).1.open_ms = k.open_ms ∧
      (k.update_timezone tz).1.close_ms = k.close_ms ∧
      (k.update_timezone tz).1.tzinfo = tz ∧
      (k.update_timezone tz).2 = none) := by
  have hfix : str_lower k.interval = k.interval :=
    mem_valid_toLower (lookup_mem_keys h)
  refine ⟨⟨?_, rfl, rfl⟩, rfl, rfl, rfl, rfl, rfl, rfl⟩
  unfold KlineTimestamp.with_timezone
  rw [mkKlinePackage_eq_root hfix]
  exact mkKlineRoot_ok h

/-- Witness for C4 amended at a concrete constructed instance. -/
theorem C4_timezone_change_witness :
    ((KlineTimestamp.mk 1633036800000 "1h" 3600000 "UTC").with_timezone
        "Europe/Madrid" =
      .ok ⟨1633036800000, "1h", 3600000, "Europe/Madrid"⟩ ∧
      (KlineTimestamp.mk 1633036800000 "1h" 3600000 "Europe/Madrid").open_ms
        = (KlineTimestamp.mk 1633036800000 "1h" 3600000 "UTC").open_ms ∧
      (KlineTimestamp.mk 1633036800000 "1h" 3600000 "Europe/Madrid").close_ms
        = (KlineTimestamp.mk 1633036800000 "1h" 3600000 "UTC").close_ms) ∧
    (((KlineTimestamp.mk 1633036800000 "1h" 3600000 "UTC").update_timezone
        "Europe/Madrid").1.timestamp_ms = 1633036800000 ∧
      ((KlineTimestamp.mk 1633036800000 "1h" 3600000 "UTC").update_timezone
        "Europe/Madrid").1.interval = "1h" ∧
      ((KlineTimestamp.mk 1633036800000 "1h" 3600000 "UTC").update_timezone
        "Europe/Madrid").1.open_ms
        = (KlineTimestamp.mk 1633036800000 "1h" 3600000 "UTC").open_ms ∧
      ((KlineTimestamp.mk 1633036800000 "1h" 3600000 "UTC").update_timezone
        "Europe/Madrid").1.close_ms
        = (KlineTimestamp.mk 1633036800000 "1h" 3600000 "UTC").close_ms ∧
      ((KlineTimestamp.mk 1633036800000 "1h" 3600000 "UTC").update_timezone
        "Europe/Madrid").1.tzinfo = "Europe/Madrid" ∧
      ((KlineTimestamp.mk 1633036800000 "1h" 3600000 "UTC").update_timezone
        "Europe/Madrid").2 = none) :=
  C4_timezone_change_amended
    (KlineTimestamp.mk 1633036800000 "1h" 3600000 "UTC")
    "Europe/Madrid" (by decide)

/-- C5 counterexample: `"1H"` is equal to the supported code `"1h"` up to
letter case, yet the root variant's constructor rejects it with
`ValueError`, refuting the claim that construction accepts interval input
case-insensitively. -/
theorem C5_counterexample :
    str_lower "1H" = "1h" ∧
    mkKlineRoot 0 "1H" "UTC" =
      .error (.invalidInterval "1H" valid_intervals) := by
  decide

/-- C5 amended: the package constructor accepts interval input
case-insensitively and stores the canonical lowercase form (whenever the
lowercased input carries tick width `tick` in the table, construction
succeeds and the stored interval is the lowercased input); the root
constructor performs no case normalization and rejects any input that is
not already lowercase. -/
theorem C5_interval_case_amended (t : Int) (s tz : String) (tick : Int)
    (h : tick_milliseconds.lookup (str_lower s) = some tick) :
    mkKlinePackage t s tz = .ok ⟨t, str_lower s, tick, tz⟩ ∧
    (s ≠ str_lower s →
      mkKlineRoot t s tz = .error (.invalidInterval s valid_intervals)) := by
  constructor
  · unfold mkKlinePackage
    rw [h]
  · intro hs
    have hsr : s ∉ valid_intervals := fun hm => hs (mem_valid_toLower hm).symm
    have hr : tick_milliseconds.lookup s = none := by
      apply lookup_eq_none_of_not_mem
      exact hsr
    unfold mkKlineRoot
    rw [hr]

/-- Witness for C5 amended at the uppercase input `"1H"`. -/
theorem C5_interval_case_witness :
    mkKlinePackage 42 "1H" "UTC" = .ok ⟨42, str_lower "1H", 3600000, "UTC"⟩ ∧
    ("1H" ≠ str_lower "1H" →
      mkKlineRoot 42 "1H" "UTC" =
        .error (.invalidInterval "1H" valid_intervals)) :=
  C5_interval_case_amended 42 "1H" "UTC" 3600000 (by decide)

/-- C6: on any well-formed instance, `next` advances the bucket open by
exactly one tick width, `prev` retreats it by exactly one tick width, and
`prev` after `next` returns to a bucket whose open equals the original
bucket open. -/
theorem C6_next_prev (k : KlineTimestamp) (h : k.WellFormed) :
    ∃ k1 k2 k3,
      k.next = .ok k1 ∧ k1.open_ms = k.open_ms + k.tick_ms ∧
      k.prev = .ok k2 ∧ k2.open_ms = k.open_ms - k.tick_ms ∧
      k1.prev = .ok k3 ∧ k3.open_ms = k.open_ms := by
  have hw : 0 < k.tick_ms := tick_pos h
  have hne : k.tick_ms ≠ 0 := ne_of_gt hw
  have hopen : k.open_ms = k.timestamp_ms.fdiv k.tick_ms * k.tick_ms := rfl
  have e1 : (KlineTimestamp.mk (k.open_ms + k.tick_ms) k.interval k.tick_ms
      k.tzinfo).open_ms = k.open_ms + k.tick_ms :=
    open_ms_of_multiple hne (k.timestamp_ms.fdiv k.tick_ms + 1) _ _ _
      (by rw [hopen]; ring)
  have e2 : (KlineTimestamp.mk (k.open_ms - k.tick_ms) k.interval k.tick_ms
      k.tzinfo).open_ms = k.open_ms - k.tick_ms :=
    open_ms_of_multiple hne (k.timestamp_ms.fdiv k.tick_ms - 1) _ _ _
      (by rw [hopen]; ring)
  have e3 : (KlineTimestamp.mk k.open_ms k.interval k.tick_ms
      k.tzinfo).open_ms = k.open_ms :=
    open_ms_of_multiple hne (k.timestamp_ms.fdiv k.tick_ms) _ _ _ hopen
  refine ⟨KlineTimestamp.mk (k.open_ms + k.tick_ms) k.interval k.tick_ms
      k.tzinfo,
    KlineTimestamp.mk (k.open_ms - k.tick_ms) k.interval k.tick_ms k.tzinfo,
    KlineTimestamp.mk k.open_ms k.interval k.tick_ms k.tzinfo,
    ?_, e1, ?_, e2, ?_, e3⟩
  · unfold KlineTimestamp.next
    exact mkKlineRoot_ok h
  · unfold KlineTimestamp.prev
    exact mkKlineRoot_ok h
  · unfold KlineTimestamp.prev
    rw [e1]
    have : k.open_ms + k.tick_ms - k.tick_ms = k.open_ms := by ring
    rw [show (KlineTimestamp.mk (k.open_ms + k.tick_ms) k.interval k.tick_ms
      k.tzinfo).tick_ms = k.tick_ms from rfl, this]
    exact mkKlineRoot_ok h

/-- Witness for C6 at a concrete constructed instance not on a tick
boundary. -/
theorem C6_next_prev_witness :
    ∃ k1 k2 k3,
      (KlineTimestamp.mk 1633036812345 "1h" 3600000 "UTC").next = .ok k1 ∧
      k1.open_ms =
        (KlineTimestamp.mk 1633036812345 "1h" 3600000 "UTC").open_ms
          + 3600000 ∧
      (KlineTimestamp.mk 1633036812345 "1h" 3600000 "UTC").prev = .ok k2 ∧
      k2.open_ms =
        (KlineTimestamp.mk 1633036812345 "1h" 3600000 "UTC").open_ms
          - 3600000 ∧
      k1.prev = .ok k3 ∧
      k3.open_ms =
        (KlineTimestamp.mk 1633036812345 "1h" 3600000 "UTC").open_ms :=
  C6_next_prev (KlineTimestamp.mk 1633036812345 "1h" 3600000 "UTC")
    (by decide)

/-- C7: adding a duration and then subtracting the same duration yields an
instance whose raw timestamp equals the original raw timestamp (whatever
millisecond count the duration converts to, the same count is added and
subtracted). -/
theorem C7_add_sub_roundtrip (k : KlineTimestamp) (d : timedelta)
    (h : k.WellFormed) :
    ∃ k1 k2, k.add d = .ok k1 ∧ k1.sub_timedelta d = .ok k2 ∧
      k2.timestamp_ms = k.timestamp_ms := by
  refine ⟨KlineTimestamp.mk (k.timestamp_ms + duration_as_ms d) k.interval
      k.tick_ms k.tzinfo,
    KlineTimestamp.mk k.timestamp_ms k.interval k.tick_ms k.tzinfo,
    ?_, ?_, rfl⟩
  · unfold KlineTimestamp.add
    exact mkKlineRoot_ok h
  · unfold KlineTimestamp.sub_timedelta
    show mkKlineRoot (k.timestamp_ms + duration_as_ms d - duration_as_ms d)
      k.interval k.tzinfo = _
    rw [add_sub_cancel_right]
    exact mkKlineRoot_ok h

/-- Witness for C7 with a 1.5-millisecond duration: the intermediate bucket
may differ but the raw timestamp round-trips. -/
theorem C7_add_sub_roundtrip_witness :
    ∃ k1 k2,
      (KlineTimestamp.mk 1633036800000 "1h" 3600000 "UTC").add ⟨1500⟩
        = .ok k1 ∧
      k1.sub_timedelta ⟨1500⟩ = .ok k2 ∧
      k2.timestamp_ms =
        (KlineTimestamp.mk 1633036800000 "1h" 3600000 "UTC").timestamp_ms :=
  C7_add_sub_roundtrip (KlineTimestamp.mk 1633036800000 "1h" 3600000 "UTC")
    ⟨1500⟩ (by decide)

/-- C8: subtracting one instance from another — with any intervals and any
timezones — returns a duration holding exactly the difference of the two
raw timestamps in milliseconds (`(a.timestamp_ms - b.timestamp_ms) * 1000`
microseconds, which converts back to exactly that many milliseconds), not
the difference of the bucket opens. -/
theorem C8_sub_raw_difference (a b : KlineTimestamp) :
    (a.sub_kline b).microseconds = (a.timestamp_ms - b.timestamp_ms) * 1000 ∧
    duration_as_ms (a.sub_kline b) = a.timestamp_ms - b.timestamp_ms := by
  refine ⟨rfl, ?_⟩
  show pyInt ((a.sub_kline b).total_seconds * 1000) = _
  have : (a.sub_kline b).total_seconds * 1000
      = ((a.timestamp_ms - b.timestamp_ms : Int) : ℚ) := by
    show (((a.timestamp_ms - b.timestamp_ms) * 1000 : Int) : ℚ) / 1000000
        * 1000 = _
    push_cast
    ring
  rw [this, pyInt_intCast]

/-- C9 counterexample: `"1H"` is not a member of the 14-entry supported set,
yet the package constructor succeeds on it (after lowercasing), producing an
instance; and on the genuinely unsupported `"7M"` the package error reports
the lowercased value `"7m"` rather than the offending input.  This refutes
the claim for the package variant. -/
theorem C9_counterexample :
    "1H" ∉ valid_intervals ∧
    mkKlinePackage 0 "1H" "UTC" = .ok ⟨0, "1h", 3600000, "UTC"⟩ ∧
    mkKlinePackage 0 "7M" "UTC" =
      .error (.invalidInterval "7m" valid_intervals) := by
  decide

/-- C9 amended: for every interval string whose lowercase form is outside
the 14-entry supported set, both constructors fail with an invalid-interval
error carrying the offending value (the package variant reports its
lowercased form) and the list of the 14 valid codes, and no instance is
produced; the root constructor moreover fails on every string literally
outside the set, including case variants of valid codes. -/
theorem C9_invalid_interval (t : Int) (s tz : String)
    (h : str_lower s ∉ valid_intervals) :
    mkKlinePackage t s tz =
      .error (.invalidInterval (str_lower s) valid_intervals) ∧
    mkKlineRoot t s tz = .error (.invalidInterval s valid_intervals) := by
  have hp : tick_milliseconds.lookup (str_lower s) = none :=
    lookup_eq_none_of_not_mem h
  have hsr : s ∉ valid_intervals := fun hm => by
    rw [← mem_valid_toLower hm] at hm
    exact h hm
  have hr : tick_milliseconds.lookup s = none :=
    lookup_eq_none_of_not_mem hsr
  constructor
  · unfold mkKlinePackage
    rw [hp]
  · unfold mkKlineRoot
    rw [hr]

/-- Witness for C9 at the spec's concrete unsupported interval `"7m"`. -/
theorem C9_invalid_interval_witness :
    mkKlinePackage 1633036800000 "7m" "UTC" =
      .error (.invalidInterval (str_lower "7m") valid_intervals) ∧
    mkKlineRoot 1633036800000 "7m" "UTC" =
      .error (.invalidInterval "7m" valid_intervals) :=
  C9_invalid_interval 1633036800000 "7m" "UTC" (by decide)

/-- C10: the duration operand is converted to whole milliseconds by
truncation toward zero of `total_seconds() * 1000` (floats modelled as
exact rationals), so a positive duration strictly below one millisecond
converts to zero milliseconds and adding it returns an instance with the
receiver's raw timestamp unchanged. -/
theorem C10_submillisecond_truncation (k : KlineTimestamp) (d : timedelta)
    (h : k.WellFormed) (h1 : 0 < d.microseconds)
    (h2 : d.microseconds < 1000) :
    duration_as_ms d = 0 ∧
    ∃ k1, k.add d = .ok k1 ∧ k1.timestamp_ms = k.timestamp_ms := by
  have hq0 : (0 : ℚ) ≤ (d.microseconds : ℚ) / 1000000 * 1000 := by
    have : (0 : ℚ) ≤ (d.microseconds : ℚ) := by
      exact_mod_cast le_of_lt h1
    positivity
  have hq1 : (d.microseconds : ℚ) / 1000000 * 1000 < 1 := by
    have : (d.microseconds : ℚ) < 1000 := by exact_mod_cast h2
    rw [div_mul_eq_mul_div, div_lt_one (by norm_num)]
    linarith
  have hd : duration_as_ms d = 0 := by
    show pyInt (d.total_seconds * 1000) = 0
    unfold timedelta.total_seconds pyInt
    rw [if_pos hq0, Int.floor_eq_zero_iff]
    exact ⟨hq0, hq1⟩
  refine ⟨hd, KlineTimestamp.mk k.timestamp_ms k.interval k.tick_ms k.tzinfo,
    ?_, rfl⟩
  unfold KlineTimestamp.add
  rw [hd, add_zero]
  exact mkKlineRoot_ok h

/-- Witness for C10 with a duration of 500 microseconds (half a
millisecond). -/
theorem C10_submillisecond_truncation_witness :
    duration_as_ms ⟨500⟩ = 0 ∧
    ∃ k1,
      (KlineTimestamp.mk 1633036812345 "1h" 3600000 "UTC").add ⟨500⟩
        = .ok k1 ∧
      k1.timestamp_ms =
        (KlineTimestamp.mk 1633036812345 "1h" 3600000 "UTC").timestamp_ms :=
  C10_submillisecond_truncation
    (KlineTimestamp.mk 1633036812345 "1h" 3600000 "UTC") ⟨500⟩
    (by decide) (by decide) (by decide)
